import Mathlib

/-! # SR-VNC core: shallow embedding and verification

Embedding of the SR-VNC server (`src/sr_vnc/server.py`) and client
(`src/sr_vnc/client.py`): datagram framing, the control-channel message
handler, the fixed-cadence send loop, and the client receive loop.
Bytes are modelled as `Nat` values below 256; machine `uint32` bounds
appear as explicit `< 2^32` side conditions where `struct.pack`/`unpack`
impose them. Fallible Python code (raising `json`, `struct`, `KeyError`,
`ValueError` exceptions) is modelled with `Except`.
-/

/-- A wire byte. The embedding uses `Nat` values below 256. -/
abbrev Byte := Nat

/-- The four big-endian bytes of `n`, as produced by `struct.pack("!I", n)`
for an in-range `n`. -/
def pack4 (n : Nat) : List Byte :=
  [n / 16777216 % 256, n / 65536 % 256, n / 256 % 256, n % 256]

/-- `struct.pack("!I", n)`: raises `struct.error` when `n` does not fit in a
`uint32`, otherwise yields the four big-endian bytes. -/
def packLen (n : Nat) : Option (List Byte) :=
  if n < 4294967296 then some (pack4 n) else none

/-- Errors raised on the server's tick path: capture failure, encode failure
(`cv2.imencode` unsuccessful, raised as `RuntimeError` in `capture_frame`),
and `struct.error` from packing an oversized length. -/
inductive TickErr where
  | captureError
  | encodeError
  | packError
deriving DecidableEq, Repr

/-- Error raised by `FramePacket.parse`: `struct.unpack("!I", raw[:4])`
raises `struct.error` when fewer than four bytes are available. -/
inductive ParseErr where
  | structError
deriving DecidableEq, Repr

/-- `FramePacket` from `client.py`: declared size and payload bytes. -/
structure FramePacket where
  size : Nat
  payload : List Byte
deriving DecidableEq, Repr

/-- `FramePacket.parse(raw)` from `client.py`:
`size = struct.unpack("!I", raw[:4])[0]; payload = raw[4:4+size]`.
Python slicing clamps, so the payload is whatever bytes are present,
up to `size` of them; only a buffer shorter than four bytes raises. -/
def FramePacket.parse (raw : List Byte) : Except ParseErr FramePacket :=
  match raw with
  | b0 :: b1 :: b2 :: b3 :: rest =>
    let size := b0 * 16777216 + b1 * 65536 + b2 * 256 + b3
    .ok ⟨size, rest.take size⟩
  | _ => .error .structError

/-- The framing step of `SRVNCServer.send_frame`:
`header = struct.pack("!I", len(frame)); header + frame`. There is no
payload-size ceiling check in the source; only `struct.pack` can fail. -/
def sendFrameEncode (p : List Byte) : Except TickErr (List Byte) :=
  match packLen p.length with
  | some h => .ok (h ++ p)
  | none => .error .packError

/-- The spec's example maximum safe datagram payload size (65507 bytes). -/
def maxPayload : Nat := 65507

/-- A JSON value appearing in a control-message payload field. -/
inductive JsonVal where
  | jint (n : Int)
  | jstr (s : String)
  | jnull
deriving DecidableEq, Repr

/-- Python `int(v)`: identity on integers, numeric-string conversion on
strings (failing with `ValueError` on non-numeric text), and a `TypeError`
on `null`/`None`; failures are `none`. -/
def pyInt : JsonVal → Option Int
  | .jint n => some n
  | .jstr s => s.toInt?
  | .jnull => none

/-- The fields of a control message's `payload` object that the code reads.
`host = none` covers both a missing key and an explicit JSON `null`, which
`payload.get("host")` does not distinguish; `port = none` means the key is
missing (so `payload["port"]` raises `KeyError`). -/
structure Payload where
  host : Option String
  port : Option JsonVal
  raw : Option String
deriving DecidableEq, Repr

/-- `ControlMessage` from `server.py`: a type tag and the payload object. -/
structure ControlMessage where
  type : String
  payload : Payload
deriving DecidableEq, Repr

/-- An incoming websocket text message: either not valid JSON, or a JSON
object with an optional `type` field and a payload object (a missing
`payload` key defaults to `{}`, the all-`none` payload). -/
inductive Wire where
  | invalid
  | obj (tag : Option String) (payload : Payload)
deriving DecidableEq, Repr

/-- Exceptions raised while handling one control message: `json.loads`
failure, a missing dictionary key, and `int()` conversion failure. -/
inductive CtrlErr where
  | jsonError
  | keyError
  | valueError
deriving DecidableEq, Repr

/-- `ControlMessage.from_json`: `json.loads` raises on invalid input,
`data["type"]` raises `KeyError` when absent; otherwise the message is
constructed with whatever type string arrived. -/
def ControlMessage.fromJson : Wire → Except CtrlErr ControlMessage
  | .invalid => .error .jsonError
  | .obj none _ => .error .keyError
  | .obj (some t) pl => .ok ⟨t, pl⟩

/-- Server state the control handler and send loop share: the registered
client endpoint `_client_addr` and whether `_transport` is set. -/
structure ServerState where
  clientAddr : Option (String × Int)
  transport : Bool
deriving DecidableEq, Repr

/-- `control.payload.get("host") or websocket.remote_address[0]`: Python
`or` falls through on the falsy values `None` and `""`. -/
def hostOr (h : Option String) (remote : String) : String :=
  match h with
  | some s => if s = "" then remote else s
  | none => remote

/-- One iteration of the `async for` body of `SRVNCServer.handle_control`:
parse the message, then either install the registration endpoint or
dispatch the message to `apply_control`. The returned list holds the
messages passed to `apply_control` (exactly the non-`register` ones). An
error means this iteration raised, with no state change. -/
def handleMsg (remote : String) (s : ServerState) (w : Wire) :
    Except CtrlErr (ServerState × List ControlMessage) :=
  match ControlMessage.fromJson w with
  | .error e => .error e
  | .ok c =>
    if c.type = "register" then
      let host := hostOr c.payload.host remote
      match c.payload.port with
      | none => .error .keyError
      | some v =>
        match pyInt v with
        | none => .error .valueError
        | some p => .ok ({ s with clientAddr := some (host, p) }, [])
    else
      .ok (s, [c])

/-- The `async for message in websocket` loop of `handle_control` over a
finite message sequence: iterations run in order; an uncaught exception
ends the loop (and the connection handler), leaving the state as of the
raising iteration and discarding the remaining messages. -/
def handleControl (remote : String) (s : ServerState) :
    List Wire → ServerState × List ControlMessage × Option CtrlErr
  | [] => (s, [], none)
  | w :: ws =>
    match handleMsg remote s w with
    | .error e => (s, [], some e)
    | .ok (s1, cs) =>
      let r := handleControl remote s1 ws
      (r.1, cs ++ r.2.1, r.2.2)

/-- A well-formed `register` wire message for host `h` and port `p`. -/
def regWire (h : String) (p : Int) : Wire :=
  .obj (some "register") ⟨some h, some (.jint p), none⟩

/-- `SRVNCServer.send_frame`, one tick: return immediately when
`_client_addr` or `_transport` is unset; otherwise run `capture_frame`
(whose outcome, produced by the external screen/codec collaborators, is the
`cap` argument), pack the length header and send one datagram to the
current endpoint. The result pairs the tick's outcome — the list of
`(datagram, address)` sends, or the raised error — with the number of
`capture_frame` invocations the tick performed. -/
def sendFrame (cap : Except TickErr (List Byte)) (s : ServerState) :
    Except TickErr (List (List Byte × (String × Int))) × Nat :=
  match s.clientAddr, s.transport with
  | none, _ => (.ok [], 0)
  | some _, false => (.ok [], 0)
  | some addr, true =>
    match cap with
    | .error e => (.error e, 1)
    | .ok f =>
      match packLen f.length with
      | some h => (.ok [(h ++ f, addr)], 1)
      | none => (.error .packError, 1)

/-- The `while True: await self.send_frame(); await asyncio.sleep(...)`
loop of `SRVNCServer.start`, run for a finite schedule of per-tick capture
outcomes. There is no exception handling in the loop: the first raising
tick terminates it (and the process), discarding all later ticks. Returns
the datagram sends performed and the terminating error, if any. -/
def runLoop (s : ServerState) :
    List (Except TickErr (List Byte)) → List (List Byte × (String × Int)) × Option TickErr
  | [] => ([], none)
  | cap :: caps =>
    match (sendFrame cap s).1 with
    | .error e => ([], some e)
    | .ok sends =>
      let r := runLoop s caps
      (sends ++ r.1, r.2)

/-- `SRVNCClient.display_frame`: decode the payload with the external
decoder (`cv2.imdecode`, the `dec` argument); a `None` result returns with
no action, otherwise the frame is shown. Returns the displayed frames. -/
def displayFrame (dec : List Byte → Option Nat) (frame : List Byte) : List (List Byte) :=
  match dec frame with
  | none => []
  | some _ => [frame]

/-- `SRVNCClient.receive_frames` over a finite sequence of datagrams:
each datagram is parsed with `FramePacket.parse` and its payload passed to
`display_frame`. The loop body has no exception handling, so a raising
parse terminates the loop; a failed decode merely skips the frame. Returns
the displayed frames and the terminating error, if any. -/
def receiveFrames (dec : List Byte → Option Nat) :
    List (List Byte) → List (List Byte) × Option ParseErr
  | [] => ([], none)
  | d :: ds =>
    match FramePacket.parse d with
    | .error e => ([], some e)
    | .ok pkt =>
      let r := receiveFrames dec ds
      (displayFrame dec pkt.payload ++ r.1, r.2)

/-! ## Shared helper lemmas -/

/-- Parsing a correctly framed payload recovers it. -/
theorem parse_pack4_append (p : List Byte) (h32 : p.length < 4294967296) :
    FramePacket.parse (pack4 p.length ++ p) = .ok ⟨p.length, p⟩ := by
  have hsz : p.length / 16777216 % 256 * 16777216 + p.length / 65536 % 256 * 65536
      + p.length / 256 % 256 * 256 + p.length % 256 = p.length := by omega
  simp [pack4, FramePacket.parse, hsz]

/-- The send path frames any payload whose length fits in a `uint32`,
with no further check. -/
theorem sendFrameEncode_ok (p : List Byte) (h32 : p.length < 4294967296) :
    sendFrameEncode p = .ok (pack4 p.length ++ p) := by
  simp [sendFrameEncode, packLen, h32]

/-- A replicated list's length, stated once to avoid unfolding the list. -/
theorem replicate_65508_length : (List.replicate 65508 (0 : Byte)).length = 65508 :=
  List.length_replicate 65508 0

/-! ## Claims -/

/-- C1: framing a payload `p` with `len(p) ≤ max_payload` as the server's
send path does, then parsing the result with `FramePacket.parse`, yields a
packet whose payload equals `p` and whose declared size equals `len(p)`. -/
theorem frame_roundtrip (p : List Byte) (hp : p.length ≤ maxPayload) :
    sendFrameEncode p = .ok (pack4 p.length ++ p) ∧
    FramePacket.parse (pack4 p.length ++ p) = .ok ⟨p.length, p⟩ := by
  have h32 : p.length < 4294967296 := Nat.lt_of_le_of_lt hp (by decide)
  exact ⟨sendFrameEncode_ok p h32, parse_pack4_append p h32⟩

/-- C1 witness: the round-trip at the concrete payload `[1, 2, 3]`. -/
theorem frame_roundtrip_w :
    sendFrameEncode [1, 2, 3] = .ok (pack4 ([1, 2, 3] : List Byte).length ++ [1, 2, 3]) ∧
    FramePacket.parse (pack4 ([1, 2, 3] : List Byte).length ++ [1, 2, 3])
      = .ok ⟨([1, 2, 3] : List Byte).length, [1, 2, 3]⟩ :=
  frame_roundtrip [1, 2, 3] (by decide)

/-- C4 counterexample: a buffer declaring length 5 followed by only 2 bytes
does not fail; `FramePacket.parse` returns a packet with the short payload. -/
theorem parse_truncated_cex :
    FramePacket.parse [0, 0, 0, 5, 1, 2] = .ok ⟨5, [1, 2]⟩ := rfl

/-- C4 amended: when the declared length exceeds the remaining bytes and the
buffer still has at least the four header bytes, `FramePacket.parse` does not
fail with any truncation error: it returns a packet carrying the declared
size and all remaining bytes as a short payload. -/
theorem parse_truncated_returns_short (b0 b1 b2 b3 : Byte) (rest : List Byte)
    (h : rest.length < b0 * 16777216 + b1 * 65536 + b2 * 256 + b3) :
    FramePacket.parse (b0 :: b1 :: b2 :: b3 :: rest)
      = .ok ⟨b0 * 16777216 + b1 * 65536 + b2 * 256 + b3, rest⟩ := by
  simp [FramePacket.parse, List.take_of_length_le (Nat.le_of_lt h)]

/-- C4 amended witness: the truncated buffer `[0,0,0,5,1,2]` parses to a
packet with declared size 5 and the two remaining bytes as payload. -/
theorem parse_truncated_returns_short_w :
    FramePacket.parse [0, 0, 0, 5, 1, 2]
      = .ok ⟨0 * 16777216 + 0 * 65536 + 0 * 256 + 5, [1, 2]⟩ :=
  parse_truncated_returns_short 0 0 0 5 [1, 2] (by decide)

/-- C5 counterexample: a payload one byte above the 65507-byte ceiling is
framed successfully; the encode path does not fail with `PayloadTooLarge`. -/
theorem encode_oversized_cex :
    (sendFrameEncode (List.replicate 65508 0)).isOk = true := by
  rw [sendFrameEncode_ok (List.replicate 65508 0) (by rw [replicate_65508_length]; norm_num)]
  rfl

/-- C5 amended: the send path performs no payload-size ceiling check. Every
payload whose length fits in a `uint32` is framed and emitted, including all
payloads longer than `max_payload`; only a length of at least 2^32 fails, and
then with `struct.error`, not a `PayloadTooLarge` error. -/
theorem encode_no_ceiling (p : List Byte) (_hbig : maxPayload < p.length)
    (h32 : p.length < 4294967296) :
    sendFrameEncode p = .ok (pack4 p.length ++ p) :=
  sendFrameEncode_ok p h32

/-- C5 amended witness: a 65508-byte payload exceeds the ceiling and is
framed successfully anyway. -/
theorem encode_no_ceiling_w :
    sendFrameEncode (List.replicate 65508 0)
      = .ok (pack4 (List.replicate 65508 (0 : Byte)).length ++ List.replicate 65508 0) :=
  encode_no_ceiling (List.replicate 65508 0)
    (by rw [replicate_65508_length]; norm_num [maxPayload])
    (by rw [replicate_65508_length]; norm_num)

/-- C2: registering `(h1,p1)` and then `(h2,p2)` on one server leaves the
endpoint at exactly `(h2,p2)` — the second registration unconditionally
overwrites the first, with no error and no command dispatch — and the next
send-loop tick (transport up, capture succeeding with a frame that fits a
`uint32` length) sends its single datagram to exactly `(h2,p2)`. -/
theorem register_overwrite (remote h1 h2 : String) (p1 p2 : Int) (s : ServerState)
    (hh1 : h1 ≠ "") (hh2 : h2 ≠ "") (f : List Byte) (hf : f.length < 4294967296) :
    handleControl remote s [regWire h1 p1, regWire h2 p2]
      = ({ s with clientAddr := some (h2, p2) }, [], none) ∧
    sendFrame (.ok f) { s with clientAddr := some (h2, p2), transport := true }
      = (.ok [(pack4 f.length ++ f, (h2, p2))], 1) := by
  constructor
  · simp [handleControl, handleMsg, ControlMessage.fromJson, regWire, pyInt, hostOr, hh1, hh2]
  · simp [sendFrame, packLen, hf]

/-- C2 witness: registering `("a", 1)` then `("b", 2)` leaves `("b", 2)`,
and the next tick sends one datagram to `("b", 2)`. -/
theorem register_overwrite_w :
    handleControl "r" ⟨none, true⟩ [regWire "a" 1, regWire "b" 2]
      = ({ clientAddr := some ("b", 2), transport := true }, [], none) ∧
    sendFrame (.ok [9]) { clientAddr := some ("b", 2), transport := true }
      = (.ok [(pack4 ([9] : List Byte).length ++ [9], ("b", 2))], 1) :=
  register_overwrite "r" "a" "b" 1 2 ⟨none, true⟩ (by decide) (by decide) [9] (by decide)

/-- C3 counterexample: an unparseable message followed by a well-formed
command on the same connection. The handler raises on the first message and
the loop ends: the subsequent command is never processed (no message reaches
`apply_control`), contradicting log-and-ignore-then-continue. -/
theorem malformed_control_cex :
    handleControl "9.9.9.9" ⟨none, true⟩
      [Wire.invalid, .obj (some "command") ⟨none, none, some "x"⟩]
      = (⟨none, true⟩, [], some .jsonError) := rfl

/-- C3 amended: an unparseable control message raises out of the handler,
terminating the `async for` loop — subsequent messages on that connection
are not processed, though the registered endpoint is left unchanged — and a
message with an unknown `type` is not rejected: it is silently dispatched to
`apply_control` as if it were a command, also leaving state unchanged. -/
theorem malformed_and_unknown_control (remote t : String) (s : ServerState)
    (pl : Payload) (ws : List Wire) (ht : t ≠ "register") :
    handleControl remote s (Wire.invalid :: ws) = (s, [], some .jsonError) ∧
    handleMsg remote s (.obj (some t) pl) = .ok (s, [⟨t, pl⟩]) := by
  constructor
  · rfl
  · simp [handleMsg, ControlMessage.fromJson, ht]

/-- C3 amended witness: an invalid message terminates processing at once,
and the unknown type `"bogus"` is dispatched as a command. -/
theorem malformed_and_unknown_control_w :
    handleControl "r" ⟨none, false⟩ (Wire.invalid :: [])
      = (⟨none, false⟩, [], some .jsonError) ∧
    handleMsg "r" ⟨none, false⟩ (.obj (some "bogus") ⟨none, none, none⟩)
      = .ok (⟨none, false⟩, [⟨"bogus", ⟨none, none, none⟩⟩]) :=
  malformed_and_unknown_control "r" "bogus" ⟨none, false⟩ ⟨none, none, none⟩ [] (by decide)

/-- C9: a `command` control message is dispatched to `apply_control` with
exactly that payload, exactly once, and the registered endpoint is
unchanged by the handling. -/
theorem command_relay (remote : String) (s : ServerState) (raw : String) :
    handleMsg remote s (.obj (some "command") ⟨none, none, some raw⟩)
      = .ok (s, [⟨"command", ⟨none, none, some raw⟩⟩]) := rfl

/-- C10: a `register` message whose payload lacks `port`, or whose `port`
value is not convertible by `int()`, raises before the endpoint assignment:
the handler returns the appropriate error and the previous state — in
particular the previously registered endpoint, or its initial absent
value — is unchanged. -/
theorem register_bad_port_atomic (remote : String) (s : ServerState)
    (hostField : Option String) (ws : List Wire) (v : JsonVal)
    (hv : pyInt v = none) :
    handleMsg remote s (.obj (some "register") ⟨hostField, none, none⟩)
      = .error .keyError ∧
    handleMsg remote s (.obj (some "register") ⟨hostField, some v, none⟩)
      = .error .valueError ∧
    handleControl remote s (Wire.obj (some "register") ⟨hostField, none, none⟩ :: ws)
      = (s, [], some .keyError) ∧
    handleControl remote s (Wire.obj (some "register") ⟨hostField, some v, none⟩ :: ws)
      = (s, [], some .valueError) := by
  refine ⟨rfl, ?_, rfl, ?_⟩ <;>
    simp [handleMsg, handleControl, ControlMessage.fromJson, hv]

/-- C10 witness: a missing port and a `null` port both leave the state
`⟨some ("old", 7), true⟩` untouched and raise. -/
theorem register_bad_port_atomic_w :
    handleMsg "r" ⟨some ("old", 7), true⟩ (.obj (some "register") ⟨none, none, none⟩)
      = .error .keyError ∧
    handleMsg "r" ⟨some ("old", 7), true⟩ (.obj (some "register") ⟨none, some .jnull, none⟩)
      = .error .valueError ∧
    handleControl "r" ⟨some ("old", 7), true⟩ [.obj (some "register") ⟨none, none, none⟩]
      = (⟨some ("old", 7), true⟩, [], some .keyError) ∧
    handleControl "r" ⟨some ("old", 7), true⟩ [.obj (some "register") ⟨none, some .jnull, none⟩]
      = (⟨some ("old", 7), true⟩, [], some .valueError) :=
  register_bad_port_atomic "r" ⟨some ("old", 7), true⟩ none [] .jnull rfl

/-- C7: a tick with no registered endpoint performs zero sends and zero
`capture_frame` invocations, regardless of the capture outcome it would
have seen; a tick with a registered endpoint (and the transport up) whose
capture succeeds performs exactly one capture and sends exactly one
datagram, to the current endpoint. -/
theorem tick_skip_or_send (s : ServerState) (cap : Except TickErr (List Byte))
    (f : List Byte) (hf : f.length < 4294967296) :
    (s.clientAddr = none → sendFrame cap s = (.ok [], 0)) ∧
    (∀ a, s.clientAddr = some a → s.transport = true →
      sendFrame (.ok f) s = (.ok [(pack4 f.length ++ f, a)], 1)) := by
  obtain ⟨ca, tr⟩ := s
  constructor
  · rintro rfl
    rfl
  · rintro a rfl rfl
    simp [sendFrame, packLen, hf]

/-- C7 witness: the skip tick at the empty state and the send tick at a
registered state, with frame `[9]`. -/
theorem tick_skip_or_send_w :
    sendFrame (.ok [9]) ⟨none, true⟩ = (.ok [], 0) ∧
    sendFrame (.ok [9]) ⟨some ("c", 3), true⟩
      = (.ok [(pack4 ([9] : List Byte).length ++ [9], ("c", 3))], 1) :=
  ⟨(tick_skip_or_send ⟨none, true⟩ (.ok [9]) [9] (by decide)).1 rfl,
   (tick_skip_or_send ⟨some ("c", 3), true⟩ (.ok [9]) [9] (by decide)).2 ("c", 3) rfl rfl⟩

/-- C8 counterexample: with a registered endpoint, a capture failure on the
first tick terminates the send loop with that error; the second tick, whose
capture would succeed with frame `[7]`, never runs and nothing is sent —
contradicting log-skip-and-retry-next-tick. -/
theorem capture_failure_fatal_cex :
    runLoop ⟨some ("127.0.0.1", 10000), true⟩
      [.error .captureError, .ok [7]] = ([], some .captureError) := rfl

/-- C8 amended: a `CaptureError` or `EncodeError` raised on a tick with a
registered endpoint propagates uncaught out of `send_frame` and the
`start` loop, terminating the loop (and the server process) at once: no
later tick runs, no datagram is sent, and the error is the loop's outcome —
the failure is process-fatal, not tick-local. -/
theorem capture_failure_terminates (s : ServerState) (a : String × Int)
    (e : TickErr) (caps : List (Except TickErr (List Byte)))
    (ha : s.clientAddr = some a) (ht : s.transport = true) :
    runLoop s (.error e :: caps) = ([], some e) := by
  obtain ⟨ca, tr⟩ := s
  cases ha
  cases ht
  simp [runLoop, sendFrame]

/-- C8 amended witness: a concrete registered server whose first tick
raises `encodeError` stops immediately, with one later tick pending. -/
theorem capture_failure_terminates_w :
    runLoop ⟨some ("h", 1), true⟩ [.error .encodeError, .ok [7]]
      = ([], some .encodeError) :=
  capture_failure_terminates ⟨some ("h", 1), true⟩ ("h", 1) .encodeError
    [.ok [7]] rfl rfl

/-- C6 counterexample: with a decoder that decodes every payload, a 1-byte
malformed datagram followed by a well-formed datagram crashes the receive
loop at the first datagram (`struct.unpack` raises on fewer than 4 bytes):
zero frames are displayed, contradicting one-frame-displayed-and-no-crash. -/
theorem short_datagram_crashes_cex :
    receiveFrames (fun _ => some 0) [[0], pack4 1 ++ [9]]
      = ([], some .structError) := rfl

/-- C6 amended: the stated resilience holds for malformed datagrams of at
least four bytes: if the first datagram parses but its payload fails to
decode (`cv2.imdecode` yields `None`), it is dropped and the loop continues;
a following well-formed datagram is then decoded and displayed, so exactly
one frame is displayed and the loop does not crash. A malformed datagram
shorter than four bytes instead raises out of the loop. -/
theorem corrupt_frame_resilience (dec : List Byte → Option Nat)
    (b0 b1 b2 b3 : Byte) (rest : List Byte) (p : List Byte) (img : Nat)
    (hmal : dec (rest.take (b0 * 16777216 + b1 * 65536 + b2 * 256 + b3)) = none)
    (hp : p.length < 4294967296) (hdec : dec p = some img) :
    receiveFrames dec [b0 :: b1 :: b2 :: b3 :: rest, pack4 p.length ++ p]
      = ([p], none) := by
  have h1 : FramePacket.parse (b0 :: b1 :: b2 :: b3 :: rest)
      = .ok ⟨b0 * 16777216 + b1 * 65536 + b2 * 256 + b3,
             rest.take (b0 * 16777216 + b1 * 65536 + b2 * 256 + b3)⟩ := rfl
  simp [receiveFrames, h1, parse_pack4_append p hp, displayFrame, hmal, hdec]

/-- C6 amended witness: the decoder accepts only `[9]`; the four-byte-header
datagram declaring length 5 with two payload bytes is dropped, and the
well-formed datagram carrying `[9]` is displayed — exactly one frame. -/
theorem corrupt_frame_resilience_w :
    receiveFrames (fun q => if q = [9] then some 0 else none)
      [0 :: 0 :: 0 :: 5 :: [1, 2], pack4 ([9] : List Byte).length ++ [9]]
      = ([[9]], none) :=
  corrupt_frame_resilience (fun q => if q = [9] then some 0 else none)
    0 0 0 5 [1, 2] [9] 0 (by decide) (by decide) (by decide)
